import Mathlib

/-
Verification of the version-aware VyOS command translation and batching layer.

The development shallowly embeds the core of the repository:
raw configuration trees (the JSON-like nested mappings returned by the
device), the ethernet and dummy interface command-path mappers together
with their version-specific variants and the factory selecting them, the
config-parsing layer, the mapper registry, the batch builder, and the
batch-execution guard of the service layer.

Python exceptions are modelled with `Except String`: every error raised by
the embedded code is a Python `ValueError` whose message identifies which
member of the spec's error taxonomy it is ("Unknown feature: ...",
"Cannot execute empty batch", "enable-directed-broadcast requires
VyOS 1.5+ ...").  Python dictionaries are modelled as association lists in
insertion order, with lookup of the first (and, in any state reachable
from dict operations, only) occurrence of a key.
-/

namespace VyOSCore

/-- Raw configuration values: the device's configuration export is an
arbitrarily-nested mapping of string keys to scalars, lists of scalars,
or nested mappings. -/
inductive RawValue where
  | str (s : String)
  | list (l : List String)
  | map (entries : List (String × RawValue))
deriving Repr

/-- A raw configuration subtree: an ordered mapping from string keys to
raw values (Python `dict`, insertion-ordered). -/
abbrev RawConfig := List (String × RawValue)

mutual

/-- Structural equality of raw values, used where Python compares parsed
values (e.g. as dictionary keys of the VRF histogram). -/
def RawValue.beq : RawValue → RawValue → Bool
  | .str a, .str b => a == b
  | .list a, .list b => a == b
  | .map a, .map b => beqEntries a b
  | _, _ => false

/-- Structural equality of raw configuration entry lists. -/
def beqEntries : List (String × RawValue) → List (String × RawValue) → Bool
  | [], [] => true
  | (k₁, v₁) :: r₁, (k₂, v₂) :: r₂ => k₁ == k₂ && RawValue.beq v₁ v₂ && beqEntries r₁ r₂
  | _, _ => false

end

instance : BEq RawValue := ⟨RawValue.beq⟩

/-- Python truthiness of a raw value (`if not x`): empty strings, empty
lists and empty dicts are falsy, everything else is truthy. -/
def RawValue.truthy : RawValue → Bool
  | .str s => !(s.isEmpty)
  | .list l => !(l.isEmpty)
  | .map m => !(m.isEmpty)

/-- Dictionary lookup (`d.get(key)` / `d[key]`): first entry with the given
string key. -/
def lookupKey {α : Type} : List (String × α) → String → Option α
  | [], _ => none
  | (k, v) :: rest, key => if k = key then some v else lookupKey rest key

/-- Key-membership test (`key in d`). -/
def hasKey (config : RawConfig) (key : String) : Bool :=
  (lookupKey config key).isSome

/-- `config.get(key, {})`: lookup with an empty-dict default. -/
def getKeyD (config : RawConfig) (key : String) : RawValue :=
  (lookupKey config key).getD (.map [])

/-- Lookup of a key inside a raw value (`v.get(key)` when `v` is a dict;
the Python code only reaches this on dict-shaped subtrees). -/
def RawValue.getKey : RawValue → String → Option RawValue
  | .map m, key => lookupKey m key
  | _, _ => none

/-- Key-membership inside a raw value (`key in v` for a dict `v`). -/
def RawValue.hasKeyIn (v : RawValue) (key : String) : Bool :=
  (v.getKey key).isSome

/-- Entries of a raw value (`v.items()` for a dict `v`). -/
def RawValue.entries : RawValue → List (String × RawValue)
  | .map m => m
  | _ => []

/-- A queued batch operation: `{"op": "set"|"delete", "path": [...]}`. -/
structure Operation where
  op : String
  path : List String
deriving Repr, DecidableEq

-- ==========================================================================
-- Ethernet interface mapper: command-path methods
-- (src/vyos_mappers/interfaces/ethernet.py, EthernetInterfaceMapper)
-- ==========================================================================

namespace Ethernet

/-- `self.interface_type` of `EthernetInterfaceMapper`. -/
def interface_type : String := "ethernet"

/-- Command path for setting the interface description. -/
def get_description (interface description : String) : List String :=
  ["interfaces", interface_type, interface, "description", description]

/-- Command path for the description property (for deletion). -/
def get_description_path (interface : String) : List String :=
  ["interfaces", interface_type, interface, "description"]

/-- Command path for setting an interface address. -/
def get_address (interface address : String) : List String :=
  ["interfaces", interface_type, interface, "address", address]

/-- Command path for setting the interface MTU. -/
def get_mtu (interface mtu : String) : List String :=
  ["interfaces", interface_type, interface, "mtu", mtu]

/-- Command path for the MTU property (for deletion). -/
def get_mtu_path (interface : String) : List String :=
  ["interfaces", interface_type, interface, "mtu"]

/-- Command path for an interface (for deletion). -/
def get_interface (interface : String) : List String :=
  ["interfaces", interface_type, interface]

/-- Command path for disabling an interface. -/
def get_disable (interface : String) : List String :=
  ["interfaces", interface_type, interface, "disable"]

/-- Command path for assigning the interface to a VRF. -/
def get_vrf (interface vrf : String) : List String :=
  ["interfaces", interface_type, interface, "vrf", vrf]

/-- Command path for setting the interface duplex (ethernet only). -/
def get_duplex (interface duplex : String) : List String :=
  ["interfaces", interface_type, interface, "duplex", duplex]

/-- Command path for the duplex property (for deletion). -/
def get_duplex_path (interface : String) : List String :=
  ["interfaces", interface_type, interface, "duplex"]

/-- Command path for setting the interface speed (ethernet only). -/
def get_speed (interface speed : String) : List String :=
  ["interfaces", interface_type, interface, "speed", speed]

/-- Command path for the speed property (for deletion). -/
def get_speed_path (interface : String) : List String :=
  ["interfaces", interface_type, interface, "speed"]

/-- Command path for setting the MAC address. -/
def get_mac (interface mac : String) : List String :=
  ["interfaces", interface_type, interface, "mac", mac]

/-- Command path for the MAC address property (for deletion). -/
def get_mac_path (interface : String) : List String :=
  ["interfaces", interface_type, interface, "mac"]

/-- Command path for source validation (strict/loose/disable). -/
def get_ip_source_validation (interface mode : String) : List String :=
  ["interfaces", interface_type, interface, "ip", "source-validation", mode]

/-- Command path for source validation (for deletion). -/
def get_ip_source_validation_path (interface : String) : List String :=
  ["interfaces", interface_type, interface, "ip", "source-validation"]

/-- Command path for an 802.1q VLAN (vif). -/
def get_vif (interface vlan_id : String) : List String :=
  ["interfaces", interface_type, interface, "vif", vlan_id]

/-- Command path for a QinQ service VLAN (vif-s). -/
def get_vif_s (interface vlan_id : String) : List String :=
  ["interfaces", interface_type, interface, "vif-s", vlan_id]

/-- Command path for a QinQ customer VLAN (vif-c). -/
def get_vif_c (interface s_vlan_id c_vlan_id : String) : List String :=
  ["interfaces", interface_type, interface, "vif-s", s_vlan_id, "vif-c", c_vlan_id]

/-- Command path for a vif address. -/
def get_vif_address (interface vlan_id address : String) : List String :=
  ["interfaces", interface_type, interface, "vif", vlan_id, "address", address]

/-- Command path for a vif description. -/
def get_vif_description (interface vlan_id description : String) : List String :=
  ["interfaces", interface_type, interface, "vif", vlan_id, "description", description]

/-- Command path for a vif description (for deletion). -/
def get_vif_description_path (interface vlan_id : String) : List String :=
  ["interfaces", interface_type, interface, "vif", vlan_id, "description"]

/-- Command path for a vif MTU. -/
def get_vif_mtu (interface vlan_id mtu : String) : List String :=
  ["interfaces", interface_type, interface, "vif", vlan_id, "mtu", mtu]

/-- Command path for a vif MTU (for deletion). -/
def get_vif_mtu_path (interface vlan_id : String) : List String :=
  ["interfaces", interface_type, interface, "vif", vlan_id, "mtu"]

/-- Command path for a vif MAC address. -/
def get_vif_mac (interface vlan_id mac : String) : List String :=
  ["interfaces", interface_type, interface, "vif", vlan_id, "mac", mac]

/-- Command path for a vif MAC (for deletion). -/
def get_vif_mac_path (interface vlan_id : String) : List String :=
  ["interfaces", interface_type, interface, "vif", vlan_id, "mac"]

/-- Command path for a vif-s address. -/
def get_vif_s_address (interface vlan_id address : String) : List String :=
  ["interfaces", interface_type, interface, "vif-s", vlan_id, "address", address]

/-- Command path for a vif-s description. -/
def get_vif_s_description (interface vlan_id description : String) : List String :=
  ["interfaces", interface_type, interface, "vif-s", vlan_id, "description", description]

/-- Command path for a vif-s description (for deletion). -/
def get_vif_s_description_path (interface vlan_id : String) : List String :=
  ["interfaces", interface_type, interface, "vif-s", vlan_id, "description"]

/-- Command path for a vif-s MTU. -/
def get_vif_s_mtu (interface vlan_id mtu : String) : List String :=
  ["interfaces", interface_type, interface, "vif-s", vlan_id, "mtu", mtu]

/-- Command path for a vif-s MTU (for deletion). -/
def get_vif_s_mtu_path (interface vlan_id : String) : List String :=
  ["interfaces", interface_type, interface, "vif-s", vlan_id, "mtu"]

/-- Command path for a vif-s MAC address. -/
def get_vif_s_mac (interface vlan_id mac : String) : List String :=
  ["interfaces", interface_type, interface, "vif-s", vlan_id, "mac", mac]

/-- Command path for a vif-s MAC (for deletion). -/
def get_vif_s_mac_path (interface vlan_id : String) : List String :=
  ["interfaces", interface_type, interface, "vif-s", vlan_id, "mac"]

/-- Command path for a vif-c address: the service VLAN id is threaded
before the customer VLAN id. -/
def get_vif_c_address (interface s_vlan_id c_vlan_id address : String) : List String :=
  ["interfaces", interface_type, interface, "vif-s", s_vlan_id, "vif-c", c_vlan_id,
   "address", address]

/-- Command path for a vif-c description. -/
def get_vif_c_description (interface s_vlan_id c_vlan_id description : String) : List String :=
  ["interfaces", interface_type, interface, "vif-s", s_vlan_id, "vif-c", c_vlan_id,
   "description", description]

/-- Command path for a vif-c description (for deletion). -/
def get_vif_c_description_path (interface s_vlan_id c_vlan_id : String) : List String :=
  ["interfaces", interface_type, interface, "vif-s", s_vlan_id, "vif-c", c_vlan_id,
   "description"]

/-- Command path for a vif-c MTU. -/
def get_vif_c_mtu (interface s_vlan_id c_vlan_id mtu : String) : List String :=
  ["interfaces", interface_type, interface, "vif-s", s_vlan_id, "vif-c", c_vlan_id,
   "mtu", mtu]

/-- Command path for a vif-c MTU (for deletion). -/
def get_vif_c_mtu_path (interface s_vlan_id c_vlan_id : String) : List String :=
  ["interfaces", interface_type, interface, "vif-s", s_vlan_id, "vif-c", c_vlan_id, "mtu"]

/-- Command path for a vif-c MAC address. -/
def get_vif_c_mac (interface s_vlan_id c_vlan_id mac : String) : List String :=
  ["interfaces", interface_type, interface, "vif-s", s_vlan_id, "vif-c", c_vlan_id,
   "mac", mac]

/-- Command path for a vif-c MAC (for deletion). -/
def get_vif_c_mac_path (interface s_vlan_id c_vlan_id : String) : List String :=
  ["interfaces", interface_type, interface, "vif-s", s_vlan_id, "vif-c", c_vlan_id, "mac"]

end Ethernet

-- ==========================================================================
-- Ethernet mapper versions and factory
-- (src/vyos_mappers/interfaces/ethernet_versions/)
-- ==========================================================================

/-- The concrete mapper class selected for an ethernet interface mapper:
either the VyOS 1.4 subclass `EthernetMapper_v1_4` (which overrides the
gated methods) or the VyOS 1.5 subclass `EthernetMapper_v1_5` (which
inherits the base implementation unchanged). -/
inductive EthMapperClass where
  | v1_4
  | v1_5
deriving Repr, DecidableEq

/-- An ethernet mapper instance: its concrete class and the bound version
string it was instantiated with. -/
structure EthernetMapper where
  cls : EthMapperClass
  version : String
deriving Repr, DecidableEq

/-- Factory `get_ethernet_mapper`: selects the mapper class by version out
of a version map, with fallback to the latest (1.5) class for unknown
versions, and instantiates it with the version string. -/
def get_ethernet_mapper (version : String) : EthernetMapper :=
  if version = "1.4" then { cls := .v1_4, version := version }
  else if version = "1.5" then { cls := .v1_5, version := version }
  else { cls := .v1_5, version := version }

/-- `get_ip_enable_directed_broadcast`, dispatched through the mapper's
class: the `EthernetMapper_v1_4` override raises
`ValueError("enable-directed-broadcast requires VyOS 1.5+. Current device
is running v1.4")` (the spec's `UnsupportedFeatureError`, naming the
required minimum version), while `EthernetMapper_v1_5` inherits the base
method that returns the command path. -/
def EthernetMapper.get_ip_enable_directed_broadcast (m : EthernetMapper)
    (interface : String) : Except String (List String) :=
  match m.cls with
  | .v1_4 =>
      .error "enable-directed-broadcast requires VyOS 1.5+. Current device is running v1.4"
  | .v1_5 =>
      .ok ["interfaces", Ethernet.interface_type, interface, "ip",
           "enable-directed-broadcast"]

-- ==========================================================================
-- Ethernet interface mapper: config parsing
-- (src/vyos_mappers/interfaces/ethernet.py, parse methods)
-- ==========================================================================

/-- Parsed hardware offload settings (`_parse_offload` result). -/
structure OffloadConfig where
  gro : Option RawValue
  gso : Option RawValue
  lro : Option RawValue
  rps : Option RawValue
  sg : Option RawValue
  tso : Option RawValue
deriving Repr

/-- Parsed ring-buffer settings (`_parse_ring_buffer` result). -/
structure RingBufferConfig where
  rx : Option RawValue
  tx : Option RawValue
deriving Repr

/-- Parsed IP settings (`_parse_ip_config` result).  The
`enable_directed_broadcast` field is an `Option Bool`: the base (v1.5)
parser stores a plain boolean, the v1.4 override always stores `None`. -/
structure EthIpConfig where
  adjust_mss : Option RawValue
  arp_cache_timeout : Option RawValue
  disable_arp_filter : Bool
  enable_arp_accept : Bool
  enable_arp_announce : Bool
  enable_arp_ignore : Bool
  enable_proxy_arp : Bool
  proxy_arp_pvlan : Bool
  source_validation : Option RawValue
  enable_directed_broadcast : Option Bool
deriving Repr

/-- Parsed IPv6 settings (`_parse_ipv6_config` result). -/
structure Ipv6Config where
  address : Option (List String)
  adjust_mss : Option RawValue
  disable_forwarding : Bool
  dup_addr_detect_transmits : Option RawValue
deriving Repr

/-- Parsed DHCP options (`_parse_dhcp_options` result). -/
structure DhcpOptions where
  client_id : Option RawValue
  host_name : Option RawValue
  vendor_class_id : Option RawValue
  no_default_route : Bool
  default_route_distance : Option RawValue
deriving Repr

/-- Parsed DHCPv6 options (`_parse_dhcpv6_options` result). -/
structure Dhcpv6Options where
  duid : Option RawValue
  rapid_commit : Bool
  pd : Option RawValue
deriving Repr

/-- Parsed VLAN sub-interface (an element of the `vif` or `vif-c` lists). -/
structure VifRecord where
  vlan_id : String
  addresses : List String
  description : Option RawValue
  mtu : Option RawValue
  mac : Option RawValue
  vrf : Option RawValue
  disable : Bool
deriving Repr

/-- Parsed QinQ service VLAN sub-interface (an element of the `vif-s`
list), with its nested customer VLANs. -/
structure VifSRecord where
  vlan_id : String
  addresses : List String
  description : Option RawValue
  mtu : Option RawValue
  mac : Option RawValue
  vrf : Option RawValue
  disable : Bool
  vif_c : Option (List VifRecord)
deriving Repr

/-- Parsed port-mirroring settings (`_parse_mirror` result). -/
structure MirrorConfig where
  ingress : Option RawValue
  egress : Option RawValue
deriving Repr

/-- Parsed EAPoL settings (`_parse_eapol` result). -/
structure EapolConfig where
  ca_cert_file : Option RawValue
  cert_file : Option RawValue
  key_file : Option RawValue
deriving Repr

/-- Parsed EVPN settings (`_parse_evpn` result). -/
structure EvpnConfig where
  uplink : Bool
deriving Repr

/-- Normalized record for one parsed ethernet interface
(`parse_single_interface` result). -/
structure EthInterfaceRecord where
  name : String
  type : String
  addresses : List String
  description : Option RawValue
  vrf : Option RawValue
  mtu : Option RawValue
  hw_id : Option RawValue
  mac : Option RawValue
  duplex : Option RawValue
  speed : Option RawValue
  disable : Option Bool
  disable_flow_control : Bool
  disable_link_detect : Bool
  offload : Option OffloadConfig
  ring_buffer : Option RingBufferConfig
  ip : Option EthIpConfig
  ipv6 : Option Ipv6Config
  dhcp_options : Option DhcpOptions
  dhcpv6_options : Option Dhcpv6Options
  vif : Option (List VifRecord)
  vif_s : Option (List VifSRecord)
  mirror : Option MirrorConfig
  eapol : Option EapolConfig
  evpn : Option EvpnConfig
deriving Repr

/-- `_parse_addresses`: the raw `address` value may be a bare string or a
list; normalize to a list (empty when the key is absent or holds neither
a string nor a list).  The vif / vif-s / vif-c parsers inline this exact
same normalization in the source. -/
def parse_addresses (config : RawConfig) : List String :=
  match lookupKey config "address" with
  | some (.list l) => l
  | some (.str s) => [s]
  | _ => []

/-- `_parse_offload`. -/
def parse_offload (config : RawConfig) : Option OffloadConfig :=
  let offload := getKeyD config "offload"
  if offload.truthy then
    some { gro := offload.getKey "gro", gso := offload.getKey "gso",
           lro := offload.getKey "lro", rps := offload.getKey "rps",
           sg := offload.getKey "sg", tso := offload.getKey "tso" }
  else none

/-- `_parse_ring_buffer`. -/
def parse_ring_buffer (config : RawConfig) : Option RingBufferConfig :=
  let ring_buffer := getKeyD config "ring-buffer"
  if ring_buffer.truthy then
    some { rx := ring_buffer.getKey "rx", tx := ring_buffer.getKey "tx" }
  else none

/-- Base `_parse_ip_config` (the v1.5+ superset): the directed-broadcast
flag is parsed as a plain boolean. -/
def parse_ip_config_base (config : RawConfig) : Option EthIpConfig :=
  let ip_config := getKeyD config "ip"
  if ip_config.truthy then
    some { adjust_mss := ip_config.getKey "adjust-mss",
           arp_cache_timeout := ip_config.getKey "arp-cache-timeout",
           disable_arp_filter := ip_config.hasKeyIn "disable-arp-filter",
           enable_arp_accept := ip_config.hasKeyIn "enable-arp-accept",
           enable_arp_announce := ip_config.hasKeyIn "enable-arp-announce",
           enable_arp_ignore := ip_config.hasKeyIn "enable-arp-ignore",
           enable_proxy_arp := ip_config.hasKeyIn "enable-proxy-arp",
           proxy_arp_pvlan := ip_config.hasKeyIn "proxy-arp-pvlan",
           source_validation := ip_config.getKey "source-validation",
           enable_directed_broadcast :=
             some (ip_config.hasKeyIn "enable-directed-broadcast") }
  else none

/-- The `EthernetMapper_v1_4` override of `_parse_ip_config`: same
structure, but the directed-broadcast feature (absent in 1.4) is always
normalized to `None`. -/
def parse_ip_config_v14 (config : RawConfig) : Option EthIpConfig :=
  let ip_config := getKeyD config "ip"
  if ip_config.truthy then
    some { adjust_mss := ip_config.getKey "adjust-mss",
           arp_cache_timeout := ip_config.getKey "arp-cache-timeout",
           disable_arp_filter := ip_config.hasKeyIn "disable-arp-filter",
           enable_arp_accept := ip_config.hasKeyIn "enable-arp-accept",
           enable_arp_announce := ip_config.hasKeyIn "enable-arp-announce",
           enable_arp_ignore := ip_config.hasKeyIn "enable-arp-ignore",
           enable_proxy_arp := ip_config.hasKeyIn "enable-proxy-arp",
           proxy_arp_pvlan := ip_config.hasKeyIn "proxy-arp-pvlan",
           source_validation := ip_config.getKey "source-validation",
           enable_directed_broadcast := none }
  else none

/-- `_parse_ip_config`, dispatched through the mapper's class hierarchy. -/
def EthernetMapper.parse_ip_config (m : EthernetMapper) (config : RawConfig) :
    Option EthIpConfig :=
  match m.cls with
  | .v1_4 => parse_ip_config_v14 config
  | .v1_5 => parse_ip_config_base config

/-- `_parse_ipv6_config`. -/
def parse_ipv6_config (config : RawConfig) : Option Ipv6Config :=
  let ipv6_config := getKeyD config "ipv6"
  let ipv6_addresses : List String :=
    match lookupKey config "ipv6" with
    | some v =>
        match v.getKey "address" with
        | some (.map addr_map) =>
            (if hasKey addr_map "autoconf" then ["autoconf"] else []) ++
            (match lookupKey addr_map "eui64" with
             | some (.list eui) => eui.map (fun a => "eui64:" ++ a)
             | some (.str a) => ["eui64:" ++ a]
             | _ => [])
        | _ => []
    | none => []
  if !ipv6_config.truthy && ipv6_addresses.isEmpty then none
  else
    some { address := if ipv6_addresses.isEmpty then none else some ipv6_addresses,
           adjust_mss := ipv6_config.getKey "adjust-mss",
           disable_forwarding := ipv6_config.hasKeyIn "disable-forwarding",
           dup_addr_detect_transmits := ipv6_config.getKey "dup-addr-detect-transmits" }

/-- `_parse_dhcp_options`. -/
def parse_dhcp_options (config : RawConfig) : Option DhcpOptions :=
  let dhcp_options := getKeyD config "dhcp-options"
  if dhcp_options.truthy then
    some { client_id := dhcp_options.getKey "client-id",
           host_name := dhcp_options.getKey "host-name",
           vendor_class_id := dhcp_options.getKey "vendor-class-id",
           no_default_route := dhcp_options.hasKeyIn "no-default-route",
           default_route_distance := dhcp_options.getKey "default-route-distance" }
  else none

/-- `_parse_dhcpv6_options`. -/
def parse_dhcpv6_options (config : RawConfig) : Option Dhcpv6Options :=
  let dhcpv6_options := getKeyD config "dhcpv6-options"
  if dhcpv6_options.truthy then
    some { duid := dhcpv6_options.getKey "duid",
           rapid_commit := dhcpv6_options.hasKeyIn "rapid-commit",
           pd := dhcpv6_options.getKey "pd" }
  else none

/-- `_parse_vif`: iterate the `vif` subtree, keep the entries whose value
is a nested dict, and normalize each into a `VifRecord`. -/
def parse_vif (config : RawConfig) : Option (List VifRecord) :=
  let vif_raw := getKeyD config "vif"
  let vif_parsed : List VifRecord :=
    if vif_raw.truthy then
      vif_raw.entries.filterMap (fun p =>
        match p.2 with
        | .map vif_config =>
            some { vlan_id := p.1,
                   addresses := parse_addresses vif_config,
                   description := lookupKey vif_config "description",
                   mtu := lookupKey vif_config "mtu",
                   mac := lookupKey vif_config "mac",
                   vrf := lookupKey vif_config "vrf",
                   disable := hasKey vif_config "disable" }
        | _ => none)
    else []
  if vif_parsed.isEmpty then none else some vif_parsed

/-- `_parse_vif_s`: like `_parse_vif` but with the nested `vif-c`
customer VLANs parsed under each service VLAN. -/
def parse_vif_s (config : RawConfig) : Option (List VifSRecord) :=
  let vif_s_raw := getKeyD config "vif-s"
  let vif_s_parsed : List VifSRecord :=
    if vif_s_raw.truthy then
      vif_s_raw.entries.filterMap (fun p =>
        match p.2 with
        | .map vif_s_config =>
            let vif_c_raw := getKeyD vif_s_config "vif-c"
            let vif_c_parsed : List VifRecord :=
              if vif_c_raw.truthy then
                vif_c_raw.entries.filterMap (fun q =>
                  match q.2 with
                  | .map vif_c_config =>
                      some { vlan_id := q.1,
                             addresses := parse_addresses vif_c_config,
                             description := lookupKey vif_c_config "description",
                             mtu := lookupKey vif_c_config "mtu",
                             mac := lookupKey vif_c_config "mac",
                             vrf := lookupKey vif_c_config "vrf",
                             disable := hasKey vif_c_config "disable" }
                  | _ => none)
              else []
            some { vlan_id := p.1,
                   addresses := parse_addresses vif_s_config,
                   description := lookupKey vif_s_config "description",
                   mtu := lookupKey vif_s_config "mtu",
                   mac := lookupKey vif_s_config "mac",
                   vrf := lookupKey vif_s_config "vrf",
                   disable := hasKey vif_s_config "disable",
                   vif_c := if vif_c_parsed.isEmpty then none else some vif_c_parsed }
        | _ => none)
    else []
  if vif_s_parsed.isEmpty then none else some vif_s_parsed

/-- `_parse_mirror`. -/
def parse_mirror (config : RawConfig) : Option MirrorConfig :=
  let mirror := getKeyD config "mirror"
  if mirror.truthy then
    some { ingress := mirror.getKey "ingress", egress := mirror.getKey "egress" }
  else none

/-- `_parse_eapol`. -/
def parse_eapol (config : RawConfig) : Option EapolConfig :=
  let eapol := getKeyD config "eapol"
  if eapol.truthy then
    some { ca_cert_file := eapol.getKey "ca-cert-file",
           cert_file := eapol.getKey "cert-file",
           key_file := eapol.getKey "key-file" }
  else none

/-- `_parse_evpn`. -/
def parse_evpn (config : RawConfig) : Option EvpnConfig :=
  let evpn := getKeyD config "evpn"
  if evpn.truthy then some { uplink := evpn.hasKeyIn "uplink" }
  else none

/-- `parse_single_interface` of the ethernet mapper: normalize one raw
interface subtree into an `EthInterfaceRecord`.  The raw `disable` flag
is exposed as `True` when present and `None` when absent
(`disabled if disabled else None`), while `disable-flow-control` and
`disable-link-detect` are exposed as plain booleans. -/
def EthernetMapper.parse_single_interface (m : EthernetMapper) (name : String)
    (config : RawConfig) : EthInterfaceRecord :=
  let addresses := parse_addresses config
  let disabled := hasKey config "disable"
  { name := name,
    type := Ethernet.interface_type,
    addresses := addresses,
    description := lookupKey config "description",
    vrf := lookupKey config "vrf",
    mtu := lookupKey config "mtu",
    hw_id := lookupKey config "hw-id",
    mac := lookupKey config "mac",
    duplex := lookupKey config "duplex",
    speed := lookupKey config "speed",
    disable := if disabled then some true else none,
    disable_flow_control := hasKey config "disable-flow-control",
    disable_link_detect := hasKey config "disable-link-detect",
    offload := parse_offload config,
    ring_buffer := parse_ring_buffer config,
    ip := m.parse_ip_config config,
    ipv6 := parse_ipv6_config config,
    dhcp_options := parse_dhcp_options config,
    dhcpv6_options := parse_dhcpv6_options config,
    vif := parse_vif config,
    vif_s := parse_vif_s config,
    mirror := parse_mirror config,
    eapol := parse_eapol config,
    evpn := parse_evpn config }

/-- VRF histogram update, `by_vrf[vrf] = by_vrf.get(vrf, 0) + 1` on a
Python dict: bump the existing entry in place, or append a new one. -/
def incrKey : List (RawValue × Nat) → RawValue → List (RawValue × Nat)
  | [], k => [(k, 1)]
  | (a, n) :: t, k => if a == k then (a, n + 1) :: t else (a, n) :: incrKey t k

/-- Histogram lookup (`by_vrf.get(v)`). -/
def lookupHist : List (RawValue × Nat) → RawValue → Option Nat
  | [], _ => none
  | (a, n) :: t, k => if a == k then some n else lookupHist t k

/-- Parse summary returned by `parse_interfaces_of_type`. -/
structure EthParseSummary where
  interfaces : List EthInterfaceRecord
  total : Nat
  by_type : List (String × Nat)
  by_vrf : List (RawValue × Nat)
deriving Repr

/-- One iteration of the `parse_interfaces_of_type` loop (ethernet):
skip a non-dict entry; otherwise parse it, append the record, and bump
the VRF histogram when the record's vrf field is truthy. -/
def ethParseStep (m : EthernetMapper)
    (acc : List EthInterfaceRecord × List (RawValue × Nat))
    (p : String × RawValue) : List EthInterfaceRecord × List (RawValue × Nat) :=
  match p.2 with
  | .map iface_config =>
      let interface := m.parse_single_interface p.1 iface_config
      let by_vrf := match interface.vrf with
        | some v => if v.truthy then incrKey acc.2 v else acc.2
        | none => acc.2
      (acc.1 ++ [interface], by_vrf)
  | _ => acc

/-- `parse_interfaces_of_type` of the ethernet mapper. -/
def EthernetMapper.parse_interfaces_of_type (m : EthernetMapper)
    (config : RawConfig) : EthParseSummary :=
  let res := config.foldl (ethParseStep m) ([], [])
  { interfaces := res.1,
    total := res.1.length,
    by_type := [(Ethernet.interface_type, res.1.length)],
    by_vrf := res.2 }

-- ==========================================================================
-- Dummy interface mapper
-- (src/vyos_mappers/interfaces/dummy.py, DummyInterfaceMapper)
-- ==========================================================================

/-- Normalized record for one parsed dummy interface: dummy interfaces
carry no hw-id, duplex or speed. -/
structure DummyInterfaceRecord where
  name : String
  type : String
  addresses : List String
  description : Option RawValue
  vrf : Option RawValue
  mtu : Option RawValue
  disable : Option Bool
deriving Repr

namespace Dummy

/-- `self.interface_type` of `DummyInterfaceMapper`. -/
def interface_type : String := "dummy"

/-- Command path for setting the interface description. -/
def get_description (interface description : String) : List String :=
  ["interfaces", interface_type, interface, "description", description]

/-- Command path for the description property (for deletion). -/
def get_description_path (interface : String) : List String :=
  ["interfaces", interface_type, interface, "description"]

/-- Command path for setting an interface address. -/
def get_address (interface address : String) : List String :=
  ["interfaces", interface_type, interface, "address", address]

/-- Command path for setting the interface MTU. -/
def get_mtu (interface mtu : String) : List String :=
  ["interfaces", interface_type, interface, "mtu", mtu]

/-- Command path for the MTU property (for deletion). -/
def get_mtu_path (interface : String) : List String :=
  ["interfaces", interface_type, interface, "mtu"]

/-- `_parse_interface_v14`: parse one dummy interface for VyOS 1.4. -/
def parse_interface_v14 (name : String) (config : RawConfig) : DummyInterfaceRecord :=
  let addresses : List String :=
    match lookupKey config "address" with
    | some (.list l) => l
    | some (.str s) => [s]
    | _ => []
  let disabled := hasKey config "disable"
  { name := name,
    type := interface_type,
    addresses := addresses,
    description := lookupKey config "description",
    vrf := lookupKey config "vrf",
    mtu := lookupKey config "mtu",
    disable := if disabled then some true else none }

/-- `_parse_interface_v15`: parse one dummy interface for VyOS 1.5
(currently the same structure as 1.4). -/
def parse_interface_v15 (name : String) (config : RawConfig) : DummyInterfaceRecord :=
  let addresses : List String :=
    match lookupKey config "address" with
    | some (.list l) => l
    | some (.str s) => [s]
    | _ => []
  let disabled := hasKey config "disable"
  { name := name,
    type := interface_type,
    addresses := addresses,
    description := lookupKey config "description",
    vrf := lookupKey config "vrf",
    mtu := lookupKey config "mtu",
    disable := if disabled then some true else none }

/-- `parse_single_interface` of the dummy mapper: version-aware dispatch,
defaulting to the 1.5 routine for unknown versions. -/
def parse_single_interface (version name : String) (config : RawConfig) :
    DummyInterfaceRecord :=
  if version = "1.4" then parse_interface_v14 name config
  else if version = "1.5" then parse_interface_v15 name config
  else parse_interface_v15 name config

end Dummy

/-- Parse summary returned by the dummy mapper's
`parse_interfaces_of_type`. -/
structure DummyParseSummary where
  interfaces : List DummyInterfaceRecord
  total : Nat
  by_type : List (String × Nat)
  by_vrf : List (RawValue × Nat)
deriving Repr

/-- One iteration of the `parse_interfaces_of_type` loop (dummy). -/
def dummyParseStep (version : String)
    (acc : List DummyInterfaceRecord × List (RawValue × Nat))
    (p : String × RawValue) : List DummyInterfaceRecord × List (RawValue × Nat) :=
  match p.2 with
  | .map iface_config =>
      let interface := Dummy.parse_single_interface version p.1 iface_config
      let by_vrf := match interface.vrf with
        | some v => if v.truthy then incrKey acc.2 v else acc.2
        | none => acc.2
      (acc.1 ++ [interface], by_vrf)
  | _ => acc

/-- `parse_interfaces_of_type` of the dummy mapper, for the mapper bound
to the given version. -/
def dummy_parse_interfaces_of_type (version : String) (config : RawConfig) :
    DummyParseSummary :=
  let res := config.foldl (dummyParseStep version) ([], [])
  { interfaces := res.1,
    total := res.1.length,
    by_type := [(Dummy.interface_type, res.1.length)],
    by_vrf := res.2 }

-- ==========================================================================
-- Mapper registry (src/vyos_mappers/base.py, CommandMapperRegistry)
-- ==========================================================================

/-- A mapper instance produced by the registry: either a version-specific
ethernet mapper (via the `get_ethernet_mapper` factory) or a dummy mapper
(the `DummyInterfaceMapper` class instantiated with the version). -/
inductive MapperInstance where
  | ethernetMapper (m : EthernetMapper)
  | dummyMapper (version : String)
deriving Repr, DecidableEq

/-- What the registry stores for a feature name.  `get_mapper` treats a
registered class and a registered factory identically (both are applied to
the version string), so the stored entry is modelled as that function. -/
abbrev MapperFactory := String → MapperInstance

/-- The registry's `_features` dictionary. -/
abbrev RegistryState := List (String × MapperFactory)

/-- Python dict assignment `d[name] = v`: overwrite the existing entry in
place, or append a new one. -/
def setKey {α : Type} : List (String × α) → String → α → List (String × α)
  | [], name, v => [(name, v)]
  | (k, w) :: rest, name, v =>
      if k = name then (k, v) :: rest else (k, w) :: setKey rest name v

/-- `CommandMapperRegistry.register_feature`. -/
def register_feature (features : RegistryState) (name : String)
    (mapper_or_factory : MapperFactory) : RegistryState :=
  setKey features name mapper_or_factory

/-- `CommandMapperRegistry.get_mapper`: raise
`ValueError("Unknown feature: ...")` (the spec's `UnknownFeatureError`)
when the feature was never registered; otherwise apply the stored class
or factory to the version string. -/
def get_mapper (features : RegistryState) (feature version : String) :
    Except String MapperInstance :=
  match lookupKey features feature with
  | none => .error ("Unknown feature: " ++ feature)
  | some mapper_or_factory => .ok (mapper_or_factory version)

/-- Replay a sequence of `register_feature` calls against the initially
empty registry. -/
def applyRegistrations (regs : List (String × MapperFactory)) : RegistryState :=
  regs.foldl (fun st p => register_feature st p.1 p.2) []

-- ==========================================================================
-- Batch builder (src/vyos_builders/) and service execution guard
-- (src/vyos_service.py, VyOSService.execute_batch)
-- ==========================================================================

/-- A batch builder: the bound version string and the ordered operation
list `_operations`.  The ethernet and dummy builders duplicate the same
core batching methods verbatim, so one structure models both. -/
structure BatchBuilder where
  version : String
  operations : List Operation
deriving Repr, DecidableEq

/-- A fresh builder for a version (empty operation list). -/
def mkBatchBuilder (version : String) : BatchBuilder :=
  { version := version, operations := [] }

/-- `add_set`: append a set operation and return the builder. -/
def add_set (b : BatchBuilder) (path : List String) : BatchBuilder :=
  { b with operations := b.operations ++ [{ op := "set", path := path }] }

/-- `add_delete`: append a delete operation and return the builder. -/
def add_delete (b : BatchBuilder) (path : List String) : BatchBuilder :=
  { b with operations := b.operations ++ [{ op := "delete", path := path }] }

/-- `get_operations`: a copy of the operation list. -/
def get_operations (b : BatchBuilder) : List Operation :=
  b.operations

/-- `operation_count`. -/
def operation_count (b : BatchBuilder) : Nat :=
  b.operations.length

/-- `is_empty`. -/
def is_empty (b : BatchBuilder) : Bool :=
  b.operations.length == 0

/-- `set_vif` of the ethernet builder: resolve the path through the bound
ethernet mapper and append a set operation. -/
def set_vif (b : BatchBuilder) (interface vlan_id : String) : BatchBuilder :=
  add_set b (Ethernet.get_vif interface vlan_id)

/-- `set_vif_address` of the ethernet builder. -/
def set_vif_address (b : BatchBuilder) (interface vlan_id address : String) :
    BatchBuilder :=
  add_set b (Ethernet.get_vif_address interface vlan_id address)

/-- `VyOSService.execute_batch`: raise
`ValueError("Cannot execute empty batch")` (the spec's `EmptyBatchError`)
on an empty batch; otherwise submit `get_operations` as the single
multi-operation request.  The `ok` payload is exactly the operation list
handed to `device.configure_multiple_op`; the transport call is only
formed in the non-error branch. -/
def execute_batch (batch : BatchBuilder) : Except String (List Operation) :=
  if is_empty batch then .error "Cannot execute empty batch"
  else .ok (get_operations batch)

end VyOSCore

-- ==========================================================================
-- Helper lemmas about raw-value equality
-- ==========================================================================

namespace VyOSCore

/-- Equality with a string raw value is reflexive. -/
theorem rawBeq_str_refl (v : String) : (RawValue.str v == RawValue.str v) = true := by
  show RawValue.beq (RawValue.str v) (RawValue.str v) = true
  simp [RawValue.beq]

/-- A raw value that compares equal to a string raw value is that value. -/
theorem rawBeq_str_inj (v : String) (y : RawValue) :
    (y == RawValue.str v) = true → y = RawValue.str v := by
  cases y <;> simp [show (· == ·) = RawValue.beq from rfl, RawValue.beq]

/-- Comparison with a string raw value is symmetric. -/
theorem rawBeq_str_symm (v : String) (y : RawValue) :
    (RawValue.str v == y) = (y == RawValue.str v) := by
  cases y <;> simp [show (· == ·) = RawValue.beq from rfl, RawValue.beq, eq_comm]

/-- Comparison of optional raw values reduces to comparison of the values. -/
theorem some_rawBeq_some (a b : RawValue) :
    ((some a : Option RawValue) == some b) = (a == b) := rfl

end VyOSCore

namespace VyOSCore

-- ==========================================================================
-- Claim theorems
-- ==========================================================================

/-- Claim C1: for the ethernet mapper that the version factory binds to
version "1.4", `get_ip_enable_directed_broadcast` raises the
unsupported-feature error naming the required minimum version (1.5+), for
every interface name; for the mapper bound to "1.5" the same call returns
a path whose last two segments are ["ip", "enable-directed-broadcast"]. -/
theorem directed_broadcast_version_gating (interface : String) :
    (get_ethernet_mapper "1.4").get_ip_enable_directed_broadcast interface =
      .error "enable-directed-broadcast requires VyOS 1.5+. Current device is running v1.4" ∧
    (get_ethernet_mapper "1.5").get_ip_enable_directed_broadcast interface =
      .ok (["interfaces", "ethernet", interface] ++ ["ip", "enable-directed-broadcast"]) :=
  ⟨rfl, rfl⟩

/-- Claim C2: `execute_batch` raises the empty-batch error exactly when the
batch's operation list is empty (the error branch never forms a transport
request); on a non-empty batch the entire ordered operation list, exactly
as returned by `get_operations`, is submitted as the one multi-operation
request, unreordered and undeduplicated. -/
theorem execute_batch_empty_guard (b : BatchBuilder) :
    (execute_batch b = .error "Cannot execute empty batch" ↔ b.operations = []) ∧
    (b.operations ≠ [] → execute_batch b = .ok (get_operations b)) := by
  unfold execute_batch is_empty
  by_cases h : b.operations = []
  · simp [h]
  · have hlen : (b.operations.length == 0) = false := by
      simp [List.length_eq_zero, h]
    simp [hlen, h]

/-- Witness for C2 on a concrete non-empty batch. -/
theorem execute_batch_empty_guard_witness :
    execute_batch (add_set (mkBatchBuilder "1.5") ["interfaces"]) =
      .ok (get_operations (add_set (mkBatchBuilder "1.5") ["interfaces"])) :=
  (execute_batch_empty_guard (add_set (mkBatchBuilder "1.5") ["interfaces"])).2 (by decide)

/-- Claim C3: `get_vif_c_address` threads the service VLAN id before the
customer VLAN id, for all arguments. -/
theorem vif_c_address_nesting_order (interface s_vlan_id c_vlan_id address : String) :
    Ethernet.get_vif_c_address interface s_vlan_id c_vlan_id address =
      ["interfaces", "ethernet", interface, "vif-s", s_vlan_id, "vif-c", c_vlan_id,
       "address", address] := rfl

/-- Claim C4: for every attribute with a set-path method and a companion
deletion-path method (ethernet: description, mtu, duplex, speed, mac,
ip source-validation, and the vif / vif-s / vif-c description, mtu and mac
variants; dummy: description and mtu), the set path equals the deletion
path with exactly the value appended as the final segment, for all
argument strings — hence the deletion path is a strict prefix of the set
path. -/
theorem set_path_extends_delete_path (i vlan s_vlan c_vlan v : String) :
    Ethernet.get_description i v = Ethernet.get_description_path i ++ [v] ∧
    Ethernet.get_mtu i v = Ethernet.get_mtu_path i ++ [v] ∧
    Ethernet.get_duplex i v = Ethernet.get_duplex_path i ++ [v] ∧
    Ethernet.get_speed i v = Ethernet.get_speed_path i ++ [v] ∧
    Ethernet.get_mac i v = Ethernet.get_mac_path i ++ [v] ∧
    Ethernet.get_ip_source_validation i v =
      Ethernet.get_ip_source_validation_path i ++ [v] ∧
    Ethernet.get_vif_description i vlan v =
      Ethernet.get_vif_description_path i vlan ++ [v] ∧
    Ethernet.get_vif_mtu i vlan v = Ethernet.get_vif_mtu_path i vlan ++ [v] ∧
    Ethernet.get_vif_mac i vlan v = Ethernet.get_vif_mac_path i vlan ++ [v] ∧
    Ethernet.get_vif_s_description i vlan v =
      Ethernet.get_vif_s_description_path i vlan ++ [v] ∧
    Ethernet.get_vif_s_mtu i vlan v = Ethernet.get_vif_s_mtu_path i vlan ++ [v] ∧
    Ethernet.get_vif_s_mac i vlan v = Ethernet.get_vif_s_mac_path i vlan ++ [v] ∧
    Ethernet.get_vif_c_description i s_vlan c_vlan v =
      Ethernet.get_vif_c_description_path i s_vlan c_vlan ++ [v] ∧
    Ethernet.get_vif_c_mtu i s_vlan c_vlan v =
      Ethernet.get_vif_c_mtu_path i s_vlan c_vlan ++ [v] ∧
    Ethernet.get_vif_c_mac i s_vlan c_vlan v =
      Ethernet.get_vif_c_mac_path i s_vlan c_vlan ++ [v] ∧
    Dummy.get_description i v = Dummy.get_description_path i ++ [v] ∧
    Dummy.get_mtu i v = Dummy.get_mtu_path i ++ [v] :=
  ⟨rfl, rfl, rfl, rfl, rfl, rfl, rfl, rfl, rfl, rfl, rfl, rfl, rfl, rfl, rfl, rfl, rfl⟩

/-- Claim C5: the parsed `addresses` field is always a list — the ethernet
and dummy single-interface parsers both expose the address normalization:
a bare string becomes a singleton list, a list stays as is, and an absent
key (or a value that is neither a string nor a list) becomes the empty
list. -/
theorem parse_addresses_normalization (m : EthernetMapper) (version name : String)
    (config : RawConfig) :
    (m.parse_single_interface name config).addresses = parse_addresses config ∧
    (Dummy.parse_single_interface version name config).addresses =
      parse_addresses config ∧
    (∀ s, lookupKey config "address" = some (.str s) → parse_addresses config = [s]) ∧
    (∀ l, lookupKey config "address" = some (.list l) → parse_addresses config = l) ∧
    (lookupKey config "address" = none → parse_addresses config = []) ∧
    (∀ mp, lookupKey config "address" = some (.map mp) → parse_addresses config = []) := by
  refine ⟨rfl, ?_, ?_, ?_, ?_, ?_⟩
  · unfold Dummy.parse_single_interface
    split
    · rfl
    · split <;> rfl
  · intro s h; unfold parse_addresses; rw [h]
  · intro l h; unfold parse_addresses; rw [h]
  · intro h; unfold parse_addresses; rw [h]
  · intro mp h; unfold parse_addresses; rw [h]

/-- Witness for C5 at concrete raw configurations covering the bare-string,
list, absent-key and nested-map cases. -/
theorem parse_addresses_normalization_witness :
    parse_addresses [("address", RawValue.str "10.0.0.1/24")] = ["10.0.0.1/24"] ∧
    parse_addresses [("address", RawValue.list ["10.0.0.1/24", "10.0.0.2/24"])] =
      ["10.0.0.1/24", "10.0.0.2/24"] ∧
    parse_addresses [] = [] ∧
    parse_addresses [("address", RawValue.map [])] = [] :=
  ⟨(parse_addresses_normalization (get_ethernet_mapper "1.5") "1.5" "eth0"
      [("address", RawValue.str "10.0.0.1/24")]).2.2.1 "10.0.0.1/24" rfl,
   (parse_addresses_normalization (get_ethernet_mapper "1.5") "1.5" "eth0"
      [("address", RawValue.list ["10.0.0.1/24", "10.0.0.2/24"])]).2.2.2.1
      ["10.0.0.1/24", "10.0.0.2/24"] rfl,
   (parse_addresses_normalization (get_ethernet_mapper "1.5") "1.5" "eth0"
      []).2.2.2.2.1 rfl,
   (parse_addresses_normalization (get_ethernet_mapper "1.5") "1.5" "eth0"
      [("address", RawValue.map [])]).2.2.2.2.2 [] rfl⟩

/-- Claim C8: any version string other than "1.4" and "1.5" gets the
newest version's behavior: the ethernet factory selects the v1.5 mapper
class, and the dummy mapper's `parse_single_interface` produces exactly
the record of the "1.5" parse routine on the same input. -/
theorem unknown_version_falls_back_to_latest (version name : String)
    (config : RawConfig) (h14 : version ≠ "1.4") (h15 : version ≠ "1.5") :
    (get_ethernet_mapper version).cls = EthMapperClass.v1_5 ∧
    Dummy.parse_single_interface version name config =
      Dummy.parse_interface_v15 name config := by
  constructor
  · unfold get_ethernet_mapper
    rw [if_neg h14, if_neg h15]
  · unfold Dummy.parse_single_interface
    rw [if_neg h14, if_neg h15]

/-- Witness for C8 at the concrete unrecognized version "2.0". -/
theorem unknown_version_falls_back_to_latest_witness :
    (get_ethernet_mapper "2.0").cls = EthMapperClass.v1_5 ∧
    Dummy.parse_single_interface "2.0" "dum0" [("address", RawValue.str "10.0.0.1/24")] =
      Dummy.parse_interface_v15 "dum0" [("address", RawValue.str "10.0.0.1/24")] :=
  unknown_version_falls_back_to_latest "2.0" "dum0"
    [("address", RawValue.str "10.0.0.1/24")] (by decide) (by decide)

/-- Claim C9: every batch-builder operation method appends exactly one
operation at the end of the operation list, leaves all previously queued
operations unchanged and in place, and returns the (updated) builder, so
queuing `set_vif` then `set_vif_address` on a fresh builder yields a
2-element operation list in exactly that order. -/
theorem builder_append_semantics (b : BatchBuilder) (path : List String)
    (interface vlan_id address : String) :
    (add_set b path).operations = b.operations ++ [⟨"set", path⟩] ∧
    (add_delete b path).operations = b.operations ++ [⟨"delete", path⟩] ∧
    (add_set b path).version = b.version ∧
    (add_delete b path).version = b.version ∧
    (set_vif b interface vlan_id).operations =
      b.operations ++ [⟨"set", Ethernet.get_vif interface vlan_id⟩] ∧
    (set_vif_address b interface vlan_id address).operations =
      b.operations ++ [⟨"set", Ethernet.get_vif_address interface vlan_id address⟩] ∧
    (set_vif_address (set_vif (mkBatchBuilder b.version) "eth0" "100")
        "eth0" "100" "10.1.1.1/24").operations =
      [⟨"set", ["interfaces", "ethernet", "eth0", "vif", "100"]⟩,
       ⟨"set", ["interfaces", "ethernet", "eth0", "vif", "100", "address",
                "10.1.1.1/24"]⟩] :=
  ⟨rfl, rfl, rfl, rfl, rfl, rfl, rfl⟩

/-- Claim C10: in the parsed ethernet interface record the "not
configured" markers are not uniform: the `disable` field is `None` when
the raw key is absent and `True` when it is present (never `False`), while
`disable_flow_control` and `disable_link_detect` are plain booleans
reflecting key presence. -/
theorem disable_markers_nonuniform (m : EthernetMapper) (name : String)
    (config : RawConfig) :
    ((m.parse_single_interface name config).disable = some true ↔
      hasKey config "disable" = true) ∧
    ((m.parse_single_interface name config).disable = none ↔
      hasKey config "disable" = false) ∧
    (m.parse_single_interface name config).disable ≠ some false ∧
    (m.parse_single_interface name config).disable_flow_control =
      hasKey config "disable-flow-control" ∧
    (m.parse_single_interface name config).disable_link_detect =
      hasKey config "disable-link-detect" := by
  unfold EthernetMapper.parse_single_interface
  by_cases h : hasKey config "disable" <;> simp [h]

end VyOSCore

namespace VyOSCore

/-- Dictionary assignment followed by lookup: the assigned key reads back
the new value, every other key is unchanged. -/
theorem lookupKey_setKey {α : Type} (st : List (String × α)) (n m : String) (v : α) :
    lookupKey (setKey st n v) m = if m = n then some v else lookupKey st m := by
  induction st with
  | nil =>
      by_cases h : m = n
      · subst h; simp [setKey, lookupKey]
      · have h' : ¬(n = m) := fun hh => h hh.symm
        simp [setKey, lookupKey, h, h']
  | cons hd tl ih =>
      obtain ⟨k, w⟩ := hd
      by_cases hk : k = n
      · subst hk
        by_cases h : m = k
        · subst h; simp [setKey, lookupKey]
        · have h' : ¬(k = m) := fun hh => h hh.symm
          simp [setKey, lookupKey, h, h']
      · by_cases h : k = m
        · subst h
          simp [setKey, lookupKey, hk]
        · simp [setKey, lookupKey, hk, h, ih]

/-- Replaying registrations over any starting registry: looking up a name
finds the value of its most recent registration, falling back to the
starting registry when the name was never registered. -/
theorem lookupKey_applyRegistrations (regs : List (String × MapperFactory))
    (st : RegistryState) (m : String) :
    lookupKey (regs.foldl (fun s p => register_feature s p.1 p.2) st) m =
      (match regs.reverse.find? (fun p => p.1 == m) with
       | some p => some p.2
       | none => lookupKey st m) := by
  induction regs generalizing st with
  | nil => simp
  | cons hd tl ih =>
      rw [List.foldl_cons, ih, List.reverse_cons, List.find?_append]
      cases hfind : tl.reverse.find? (fun p => p.1 == m) with
      | some p => simp [hfind]
      | none =>
          simp only [hfind, Option.none_or]
          by_cases h : hd.1 = m
          · simp [List.find?, h, register_feature, lookupKey_setKey]
          · have h' : ¬(m = hd.1) := fun hh => h hh.symm
            have hb : (hd.1 == m) = false := by simp [h]
            simp [List.find?, hb, h', register_feature, lookupKey_setKey]

/-- Claim C7: registry resolution fails with the unknown-feature error if
and only if the requested feature-family name was never registered; when
it was registered, `get_mapper` returns the most recently registered class
or factory applied to the version string (last registration wins, with no
duplicate-detection error). -/
theorem registry_resolution_spec (regs : List (String × MapperFactory))
    (name version : String) :
    (get_mapper (applyRegistrations regs) name version =
        .error ("Unknown feature: " ++ name) ↔ name ∉ regs.map Prod.fst) ∧
    (∀ p : String × MapperFactory,
        regs.reverse.find? (fun q => q.1 == name) = some p →
        get_mapper (applyRegistrations regs) name version = .ok (p.2 version)) := by
  have hkey : lookupKey (applyRegistrations regs) name =
      (match regs.reverse.find? (fun q => q.1 == name) with
       | some p => some p.2
       | none => none) := lookupKey_applyRegistrations regs [] name
  constructor
  · cases hfind : regs.reverse.find? (fun q => q.1 == name) with
    | some p =>
        have hkey2 : lookupKey (applyRegistrations regs) name = some p.2 := by
          rw [hkey, hfind]
        constructor
        · intro h
          simp [get_mapper, hkey2] at h
        · intro h
          exfalso
          have hp := List.find?_some hfind
          have hmem := List.mem_of_find?_eq_some hfind
          refine h ?_
          rw [List.mem_map]
          exact ⟨p, by simpa using hmem, by simpa using hp⟩
    | none =>
        have hkey2 : lookupKey (applyRegistrations regs) name = none := by
          rw [hkey, hfind]
        constructor
        · intro _ hmem
          rw [List.mem_map] at hmem
          obtain ⟨p, hpmem, hp1⟩ := hmem
          have hnone := List.find?_eq_none.mp hfind p (by simpa using hpmem)
          simp [hp1] at hnone
        · intro _
          simp [get_mapper, hkey2]
  · intro p hp
    have hkey2 : lookupKey (applyRegistrations regs) name = some p.2 := by
      rw [hkey, hp]
    simp [get_mapper, hkey2]

/-- The registrations performed at import time by the mapper package
(ethernet via the version factory, dummy via the class), followed by a
hypothetical re-registration of the dummy family exercising last-wins. -/
def sampleRegistrations : List (String × MapperFactory) :=
  [("interface_ethernet", fun v => .ethernetMapper (get_ethernet_mapper v)),
   ("interface_dummy", fun v => .dummyMapper v),
   ("interface_dummy", fun v => .dummyMapper ("rebound-" ++ v))]

/-- Witness for C7 on the concrete registration sequence: the later
registration for the dummy family wins. -/
theorem registry_resolution_spec_witness :
    get_mapper (applyRegistrations sampleRegistrations) "interface_dummy" "1.4" =
      .ok (.dummyMapper ("rebound-" ++ "1.4")) :=
  (registry_resolution_spec sampleRegistrations "interface_dummy" "1.4").2
    ("interface_dummy", fun v => .dummyMapper ("rebound-" ++ v)) rfl

end VyOSCore

namespace VyOSCore

/-- A boolean that is not true is false. -/
theorem bool_eq_false_of_ne_true {b : Bool} (h : ¬ b = true) : b = false := by
  cases b
  · rfl
  · exact absurd rfl h

/-- The nonempty-string raw value for a nonempty string is truthy. -/
theorem truthy_str_of_ne_empty (v : String) (hv : v ≠ "") :
    (RawValue.str v).truthy = true := by
  have : v.isEmpty = false := by
    cases hc : v.isEmpty
    · rfl
    · exact absurd ((String.isEmpty_iff v).mp hc) hv
  simp [RawValue.truthy, this]

/-- The parsed-interface list of an ethernet `parse_interfaces_of_type`
run: parse the entries whose value is a nested map, skipping the rest. -/
def parsedEth (m : EthernetMapper) (config : RawConfig) : List EthInterfaceRecord :=
  config.filterMap (fun p =>
    match p.2 with
    | .map c => some (m.parse_single_interface p.1 c)
    | _ => none)

/-- The parsed-interface list of a dummy `parse_interfaces_of_type` run. -/
def parsedDummy (version : String) (config : RawConfig) : List DummyInterfaceRecord :=
  config.filterMap (fun p =>
    match p.2 with
    | .map c => some (Dummy.parse_single_interface version p.1 c)
    | _ => none)

/-- The histogram key contributed by a parsed vrf field: the raw value
itself when it is Python-truthy, nothing otherwise. -/
def vrfKeyOf (vrf : Option RawValue) : Option RawValue :=
  match vrf with
  | some v => if v.truthy then some v else none
  | none => none

/-- Bumping a histogram at a key reads back one more than before at that
key (for a key whose comparison is reflexive). -/
theorem lookupHist_incrKey_self (h : List (RawValue × Nat)) (k : RawValue)
    (hrefl : (k == k) = true) :
    lookupHist (incrKey h k) k = some ((lookupHist h k).getD 0 + 1) := by
  induction h with
  | nil => simp [incrKey, lookupHist, hrefl]
  | cons hd t ih =>
      obtain ⟨a, n⟩ := hd
      by_cases ha : (a == k) = true
      · simp [incrKey, lookupHist, ha]
      · have haf : (a == k) = false := bool_eq_false_of_ne_true ha
        simp [incrKey, lookupHist, haf, ih]

/-- Bumping a histogram at a different key leaves the lookup unchanged. -/
theorem lookupHist_incrKey_other (h : List (RawValue × Nat)) (x k : RawValue)
    (hxk : (x == k) = false)
    (hcons : ∀ y, (y == k) = true → (y == x) = false) :
    lookupHist (incrKey h x) k = lookupHist h k := by
  induction h with
  | nil => simp [incrKey, lookupHist, hxk]
  | cons hd t ih =>
      obtain ⟨a, n⟩ := hd
      by_cases hax : (a == x) = true
      · have hak : (a == k) = false := by
          cases hc : (a == k) with
          | false => rfl
          | true =>
              have hfalse := hcons a hc
              rw [hfalse] at hax
              exact absurd hax (by simp)
        simp [incrKey, lookupHist, hax, hak]
      · have haxf : (a == x) = false := bool_eq_false_of_ne_true hax
        by_cases hak : (a == k) = true
        · simp [incrKey, lookupHist, haxf, hak]
        · have hakf : (a == k) = false := bool_eq_false_of_ne_true hak
          simp [incrKey, lookupHist, haxf, hakf, ih]

/-- Folding histogram bumps over a key sequence: the lookup at a
well-behaved key counts its occurrences in the sequence (on top of
whatever the starting histogram already recorded). -/
theorem lookupHist_foldl_incrKey (keys : List RawValue) (h₀ : List (RawValue × Nat))
    (k : RawValue) (hrefl : (k == k) = true)
    (hinj : ∀ y, (y == k) = true → y = k)
    (hsym : ∀ y, (k == y) = (y == k)) :
    lookupHist (keys.foldl incrKey h₀) k =
      (match lookupHist h₀ k with
       | some n => some (n + keys.countP (fun x => x == k))
       | none =>
           if keys.countP (fun x => x == k) = 0 then none
           else some (keys.countP (fun x => x == k))) := by
  induction keys generalizing h₀ with
  | nil => cases hl : lookupHist h₀ k <;> simp [hl]
  | cons x t ih =>
      rw [List.foldl_cons]
      by_cases hx : (x == k) = true
      · have hxk : x = k := hinj x hx
        subst hxk
        rw [ih (incrKey h₀ x), lookupHist_incrKey_self h₀ x hrefl]
        cases hl : lookupHist h₀ x with
        | none =>
            have hne : ¬(t.countP (fun y => y == x) + 1 = 0) := by omega
            simp [List.countP_cons, hx, hl, hne] <;> omega
        | some n =>
            simp [List.countP_cons, hx, hl] <;> omega
      · have hxf : (x == k) = false := bool_eq_false_of_ne_true hx
        have hcons : ∀ y, (y == k) = true → (y == x) = false := by
          intro y hy
          have hyk := hinj y hy
          subst hyk
          rw [hsym x]
          exact hxf
        rw [ih (incrKey h₀ x), lookupHist_incrKey_other h₀ x k hxf hcons]
        cases hl : lookupHist h₀ k with
        | some n => simp [hl, List.countP_cons, hxf]
        | none =>
            have hcnt : List.countP (fun y => y == k) (x :: t) =
                List.countP (fun y => y == k) t := by
              simp [List.countP_cons, hxf]
            simp only [hl]
            rw [hcnt]

/-- Splitting the single ethernet parse loop into the parsed-record list
and the histogram fold over the truthy vrf keys of those records. -/
theorem ethParse_foldl_split (m : EthernetMapper) (config : RawConfig)
    (acc1 : List EthInterfaceRecord) (acc2 : List (RawValue × Nat)) :
    config.foldl (ethParseStep m) (acc1, acc2) =
      (acc1 ++ parsedEth m config,
       ((parsedEth m config).filterMap (fun r => vrfKeyOf r.vrf)).foldl incrKey acc2) := by
  induction config generalizing acc1 acc2 with
  | nil => simp [parsedEth]
  | cons p t ih =>
      obtain ⟨nm, pv⟩ := p
      cases pv with
      | str s => simp [List.foldl_cons, ethParseStep, parsedEth, List.filterMap_cons, ih]
      | list l => simp [List.foldl_cons, ethParseStep, parsedEth, List.filterMap_cons, ih]
      | map c =>
          rw [List.foldl_cons]
          have hstep : ethParseStep m (acc1, acc2) (nm, .map c) =
              (acc1 ++ [m.parse_single_interface nm c],
               match (m.parse_single_interface nm c).vrf with
               | some v => if v.truthy then incrKey acc2 v else acc2
               | none => acc2) := rfl
          rw [hstep]
          cases hv : (m.parse_single_interface nm c).vrf with
          | none =>
              rw [ih]
              simp [parsedEth, List.filterMap_cons, vrfKeyOf, hv]
          | some v =>
              by_cases ht : v.truthy
              · rw [ih]
                simp [parsedEth, List.filterMap_cons, vrfKeyOf, hv, ht]
              · have htf : v.truthy = false := bool_eq_false_of_ne_true ht
                rw [ih]
                simp [parsedEth, List.filterMap_cons, vrfKeyOf, hv, htf]

/-- Splitting the single dummy parse loop the same way. -/
theorem dummyParse_foldl_split (version : String) (config : RawConfig)
    (acc1 : List DummyInterfaceRecord) (acc2 : List (RawValue × Nat)) :
    config.foldl (dummyParseStep version) (acc1, acc2) =
      (acc1 ++ parsedDummy version config,
       ((parsedDummy version config).filterMap (fun r => vrfKeyOf r.vrf)).foldl
         incrKey acc2) := by
  induction config generalizing acc1 acc2 with
  | nil => simp [parsedDummy]
  | cons p t ih =>
      obtain ⟨nm, pv⟩ := p
      cases pv with
      | str s => simp [List.foldl_cons, dummyParseStep, parsedDummy, List.filterMap_cons, ih]
      | list l => simp [List.foldl_cons, dummyParseStep, parsedDummy, List.filterMap_cons, ih]
      | map c =>
          rw [List.foldl_cons]
          have hstep : dummyParseStep version (acc1, acc2) (nm, .map c) =
              (acc1 ++ [Dummy.parse_single_interface version nm c],
               match (Dummy.parse_single_interface version nm c).vrf with
               | some v => if v.truthy then incrKey acc2 v else acc2
               | none => acc2) := rfl
          rw [hstep]
          cases hv : (Dummy.parse_single_interface version nm c).vrf with
          | none =>
              rw [ih]
              simp [parsedDummy, List.filterMap_cons, vrfKeyOf, hv]
          | some v =>
              by_cases ht : v.truthy
              · rw [ih]
                simp [parsedDummy, List.filterMap_cons, vrfKeyOf, hv, ht]
              · have htf : v.truthy = false := bool_eq_false_of_ne_true ht
                rw [ih]
                simp [parsedDummy, List.filterMap_cons, vrfKeyOf, hv, htf]

/-- The vrf key of an absent vrf field is nothing. -/
theorem vrfKeyOf_none : vrfKeyOf none = none := rfl

/-- The vrf key of a present vrf field is the value when truthy. -/
theorem vrfKeyOf_some (w : RawValue) :
    vrfKeyOf (some w) = if w.truthy then some w else none := rfl

/-- For a nonempty VRF name, counting matching truthy vrf keys equals
counting the records whose vrf field is that string. -/
theorem countP_vrfKeys_eq {ρ : Type} (vrfOf : ρ → Option RawValue)
    (l : List ρ) (v : String) (hv : v ≠ "") :
    (l.filterMap (fun r => vrfKeyOf (vrfOf r))).countP (fun x => x == RawValue.str v) =
      l.countP (fun r => vrfOf r == some (RawValue.str v)) := by
  induction l with
  | nil => rfl
  | cons r t ih =>
      rw [List.filterMap_cons, List.countP_cons]
      cases hr : vrfOf r with
      | none =>
          simp [hr, vrfKeyOf_none, ih, show ((none : Option RawValue) ==
            some (RawValue.str v)) = false from rfl]
      | some w =>
          by_cases ht : w.truthy
          · simp [hr, vrfKeyOf_some, ht, List.countP_cons, ih, some_rawBeq_some]
          · have htf : w.truthy = false := bool_eq_false_of_ne_true ht
            have hwf : (w == RawValue.str v) = false := by
              cases hb : (w == RawValue.str v) with
              | false => rfl
              | true =>
                  have hw := rawBeq_str_inj v w hb
                  subst hw
                  rw [truthy_str_of_ne_empty v hv] at htf
                  exact absurd htf (by simp)
            simp [hr, vrfKeyOf_some, htf, ih, some_rawBeq_some, hwf]

/-- No truthy vrf key ever compares equal to the empty string: the
empty-string bucket of a built histogram has count zero. -/
theorem countP_vrfKeys_empty_str {ρ : Type} (vrfOf : ρ → Option RawValue)
    (l : List ρ) :
    (l.filterMap (fun r => vrfKeyOf (vrfOf r))).countP
      (fun x => x == RawValue.str "") = 0 := by
  rw [List.countP_eq_zero]
  intro a ha hbeq
  rw [List.mem_filterMap] at ha
  obtain ⟨r, _, hr⟩ := ha
  have htr : a.truthy = true := by
    cases hvo : vrfOf r with
    | none => rw [hvo, vrfKeyOf_none] at hr; exact absurd hr (by simp)
    | some w =>
        rw [hvo, vrfKeyOf_some] at hr
        by_cases ht : w.truthy
        · rw [if_pos ht] at hr
          injection hr with h
          exact h ▸ ht
        · rw [if_neg ht] at hr
          exact absurd hr (by simp)
  have ha0 := rawBeq_str_inj "" a hbeq
  subst ha0
  exact absurd htr (by decide)

end VyOSCore

namespace VyOSCore

/-- Counterexample to claim C6 as stated: on a subtree with one interface
whose raw vrf value is the empty string, the parsed interface's vrf field
equals the empty string, yet `by_vrf` has no entry for it (Python
truthiness treats the empty string as "no VRF assigned"), so the histogram
does not map every VRF name to the number of interfaces carrying it. -/
theorem by_vrf_empty_string_counterexample :
    ((get_ethernet_mapper "1.5").parse_interfaces_of_type
        [("eth0", RawValue.map [("vrf", RawValue.str "")])]).interfaces.map
        (fun r => r.vrf) = [some (RawValue.str "")] ∧
    lookupHist ((get_ethernet_mapper "1.5").parse_interfaces_of_type
        [("eth0", RawValue.map [("vrf", RawValue.str "")])]).by_vrf
      (RawValue.str "") = none :=
  ⟨rfl, rfl⟩

/-- Claim C6 (amended): for every raw feature-family subtree, both
`parse_interfaces_of_type` implementations skip every entry whose value
is not a nested map and parse each remaining entry in order; the returned
`by_vrf` histogram maps each nonempty VRF name to the number of parsed
interfaces whose vrf field equals it (and has no entry when that count is
zero), while interfaces with no VRF assigned — including an empty-string
VRF, which the code treats as unassigned — contribute no entry. -/
theorem by_vrf_histogram_amended (m : EthernetMapper) (version : String)
    (config : RawConfig) :
    (m.parse_interfaces_of_type config).interfaces = parsedEth m config ∧
    (dummy_parse_interfaces_of_type version config).interfaces =
      parsedDummy version config ∧
    (∀ v : String, v ≠ "" →
        lookupHist (m.parse_interfaces_of_type config).by_vrf (RawValue.str v) =
          (if (parsedEth m config).countP
                (fun r => r.vrf == some (RawValue.str v)) = 0 then none
           else some ((parsedEth m config).countP
                (fun r => r.vrf == some (RawValue.str v))))) ∧
    (∀ v : String, v ≠ "" →
        lookupHist (dummy_parse_interfaces_of_type version config).by_vrf
            (RawValue.str v) =
          (if (parsedDummy version config).countP
                (fun r => r.vrf == some (RawValue.str v)) = 0 then none
           else some ((parsedDummy version config).countP
                (fun r => r.vrf == some (RawValue.str v))))) ∧
    lookupHist (m.parse_interfaces_of_type config).by_vrf (RawValue.str "") = none ∧
    lookupHist (dummy_parse_interfaces_of_type version config).by_vrf
      (RawValue.str "") = none := by
  have hsplit := ethParse_foldl_split m config [] []
  have hsplitd := dummyParse_foldl_split version config [] []
  have hifc : (m.parse_interfaces_of_type config).interfaces = parsedEth m config := by
    show (config.foldl (ethParseStep m) ([], [])).1 = parsedEth m config
    rw [hsplit]
    simp
  have hifd : (dummy_parse_interfaces_of_type version config).interfaces =
      parsedDummy version config := by
    show (config.foldl (dummyParseStep version) ([], [])).1 = parsedDummy version config
    rw [hsplitd]
    simp
  have hbv : (m.parse_interfaces_of_type config).by_vrf =
      ((parsedEth m config).filterMap (fun r => vrfKeyOf r.vrf)).foldl incrKey [] := by
    show (config.foldl (ethParseStep m) ([], [])).2 = _
    rw [hsplit]
  have hbvd : (dummy_parse_interfaces_of_type version config).by_vrf =
      ((parsedDummy version config).filterMap (fun r => vrfKeyOf r.vrf)).foldl
        incrKey [] := by
    show (config.foldl (dummyParseStep version) ([], [])).2 = _
    rw [hsplitd]
  refine ⟨hifc, hifd, ?_, ?_, ?_, ?_⟩
  · intro v hv
    rw [hbv, lookupHist_foldl_incrKey _ _ _ (rawBeq_str_refl v)
        (rawBeq_str_inj v) (rawBeq_str_symm v)]
    have hcnt := countP_vrfKeys_eq (fun r : EthInterfaceRecord => r.vrf)
      (parsedEth m config) v hv
    simp only [] at hcnt
    simp only [lookupHist]
    rw [hcnt]
  · intro v hv
    rw [hbvd, lookupHist_foldl_incrKey _ _ _ (rawBeq_str_refl v)
        (rawBeq_str_inj v) (rawBeq_str_symm v)]
    have hcnt := countP_vrfKeys_eq (fun r : DummyInterfaceRecord => r.vrf)
      (parsedDummy version config) v hv
    simp only [] at hcnt
    simp only [lookupHist]
    rw [hcnt]
  · rw [hbv, lookupHist_foldl_incrKey _ _ _ (rawBeq_str_refl "")
        (rawBeq_str_inj "") (rawBeq_str_symm "")]
    have hz := countP_vrfKeys_empty_str (fun r : EthInterfaceRecord => r.vrf)
      (parsedEth m config)
    simp only [] at hz
    simp [lookupHist, hz]
  · rw [hbvd, lookupHist_foldl_incrKey _ _ _ (rawBeq_str_refl "")
        (rawBeq_str_inj "") (rawBeq_str_symm "")]
    have hz := countP_vrfKeys_empty_str (fun r : DummyInterfaceRecord => r.vrf)
      (parsedDummy version config)
    simp only [] at hz
    simp [lookupHist, hz]

/-- Witness for C6 (amended) on the spec's own example: one interface with
vrf "MGMT" and one with no vrf key. -/
theorem by_vrf_histogram_amended_witness :
    lookupHist ((get_ethernet_mapper "1.5").parse_interfaces_of_type
        [("eth0", RawValue.map [("vrf", RawValue.str "MGMT")]),
         ("eth1", RawValue.map [])]).by_vrf (RawValue.str "MGMT") =
      (if (parsedEth (get_ethernet_mapper "1.5")
            [("eth0", RawValue.map [("vrf", RawValue.str "MGMT")]),
             ("eth1", RawValue.map [])]).countP
            (fun r => r.vrf == some (RawValue.str "MGMT")) = 0 then none
       else some ((parsedEth (get_ethernet_mapper "1.5")
            [("eth0", RawValue.map [("vrf", RawValue.str "MGMT")]),
             ("eth1", RawValue.map [])]).countP
            (fun r => r.vrf == some (RawValue.str "MGMT")))) :=
  (by_vrf_histogram_amended (get_ethernet_mapper "1.5") "1.5"
      [("eth0", RawValue.map [("vrf", RawValue.str "MGMT")]),
       ("eth1", RawValue.map [])]).2.2.1 "MGMT" (by decide)

end VyOSCore
